import Mathlib

/-!
Verification of the WireViz harness core (`src/wireviz/Harness.py`).

The development shallowly embeds the parts of `Harness.py` that the
properties below are about: the `connect` validation/recording routine,
the port-side inference and loop-edge emission of `create_graph`, the
harness-wide wire padding flag, and the `bom` cache.  Python values that
may be ints, strings or `None` are embedded as `PyVal`; Python dicts of
string keys as insertion-ordered association lists; Python exceptions as
an explicit `PyError` sum carried through `Except`.  `connect` is embedded
as a state transition that, on failure, returns the error together with
the harness state observable at the point the exception is raised.

Code of the repository that lives outside `Harness.py` (the `Connector`,
`Cable`, `MatePin` data classes, `wv_colors.get_color_hex`,
`wv_bom.generate_bom`) is modelled from the specification; each such
definition is marked `Modelled from the spec:` in its doc comment.
-/

set_option autoImplicit false

namespace WireViz

/-- A Python value appearing as a pin / wire token: an int, a string, or
`None`.  Python equality across these constructors is `False`, which the
derived `DecidableEq` reproduces. -/
inductive PyVal where
  | int (n : Int)
  | str (s : String)
  | none
deriving DecidableEq, Repr

/-- Python `str()` of a token, as used by the f-string error messages. -/
def pyvalStr : PyVal → String
  | .int n => toString n
  | .str s => s
  | .none => "None"

/-- The Python exceptions the embedded code can raise. -/
inductive PyError where
  | exception (msg : String)
  | keyError (key : String)
  | attributeError (attr : String)
  | indexError
deriving DecidableEq, Repr

/-- Index of the first occurrence of `x` (Python `list.index`); all uses
in the source are guarded by a membership test. -/
def idxOf {α : Type} [DecidableEq α] (x : α) : List α → Nat
  | [] => 0
  | y :: ys => if y = x then 0 else idxOf x ys + 1

/-- Number of occurrences of `x` (Python `list.count`). -/
def countOf {α : Type} [DecidableEq α] (x : α) : List α → Nat
  | [] => 0
  | y :: ys => (if y = x then 1 else 0) + countOf x ys

/-- Lookup in an insertion-ordered association list (Python `dict[k]`). -/
def lookupStr {α : Type} (k : String) : List (String × α) → Option α
  | [] => Option.none
  | p :: rest => if p.1 = k then some p.2 else lookupStr k rest

/-- Python `dict[k] = v`: replace in place if the key exists, else append. -/
def dictSet {α : Type} (xs : List (String × α)) (k : String) (v : α) : List (String × α) :=
  match xs with
  | [] => [(k, v)]
  | p :: rest => if p.1 = k then (k, v) :: rest else p :: dictSet rest k v

/-- Update the value stored under `k`, or `Option.none` when `k` is absent. -/
def updAssoc {α : Type} (xs : List (String × α)) (k : String) (f : α → α) :
    Option (List (String × α)) :=
  match xs with
  | [] => Option.none
  | p :: rest =>
    if p.1 = k then some ((p.1, f p.2) :: rest)
    else (updAssoc rest k f).map (p :: ·)

/-- Modelled from the spec: the `Connection` record a cable keeps for each
recorded link — "(from_name, from_port|None, via_wire_index, to_name,
to_port|None)" (`wireviz.DataClasses`, not under `src/`).  Field names
follow the attribute accesses in `create_graph`. -/
structure Connection where
  from_name : Option String
  from_port : PyVal
  via_port : PyVal
  to_name : Option String
  to_port : PyVal
deriving DecidableEq, Repr

/-- Modelled from the spec: the `Connector` entity (`wireviz.DataClasses`,
not under `src/`): ordered `pins`, parallel `pinlabels`, `loops` as
(pin, pin) pairs, the mutable activation set `visible_pins`, the derived
layout flags `ports_left` / `ports_right` (initially unset), and the part
number used by the BOM aggregator. -/
structure Connector where
  name : String
  pn : String
  pins : List PyVal
  pinlabels : List PyVal
  loops : List (PyVal × PyVal)
  visible_pins : List PyVal
  ports_left : Bool
  ports_right : Bool
deriving DecidableEq, Repr

/-- Modelled from the spec: the `Cable` entity (`wireviz.DataClasses`, not
under `src/`): parallel `colors` / `wirelabels` lists, the ordered list of
recorded `connections`, and the part number used by the BOM aggregator. -/
structure Cable where
  name : String
  pn : String
  colors : List String
  wirelabels : List String
  connections : List Connection
deriving DecidableEq, Repr

/-- Modelled from the spec: `MatePin` carries endpoint pins and the arrow
glyph shape (`wireviz.DataClasses`, not under `src/`).  Field names follow
the attribute accesses in `create_graph`. -/
structure MatePin where
  from_name : String
  from_port : PyVal
  to_name : String
  to_port : PyVal
  shape : String
deriving DecidableEq, Repr

/-- Modelled from the spec: `MateComponent` carries whole-component
endpoints (`wireviz.DataClasses`, not under `src/`). -/
structure MateComponent where
  from_name : String
  to_name : String
  shape : String
deriving DecidableEq, Repr

/-- One row of the aggregated bill of materials, keyed by the composite
part key and carrying a summed quantity. -/
structure BomRow where
  key : String
  qty : Nat
deriving DecidableEq, Repr

/-- The `Harness` object.  The fields are exactly those assigned in
`Harness.__init__` (`Harness.py` lines 26-34); in particular there is no
`mates` attribute, so any access to `self.mates` raises `AttributeError`. -/
structure Harness where
  color_mode : String
  mini_bom_mode : Bool
  connectors : List (String × Connector)
  cables : List (String × Cable)
  mates_pin : List MatePin
  mates_component : List MateComponent
  _bom : List BomRow
  additional_bom_items : List String
deriving DecidableEq, Repr

/-- `Harness.__init__` (`Harness.py` lines 26-34). -/
def initHarness : Harness :=
  { color_mode := "SHORT"
    mini_bom_mode := true
    connectors := []
    cables := []
    mates_pin := []
    mates_component := []
    _bom := []
    additional_bom_items := [] }

/-- `Harness.add_connector` (line 36): `self.connectors[name] = Connector(...)`. -/
def add_connector (h : Harness) (name : String) (c : Connector) : Harness :=
  { h with connectors := dictSet h.connectors name c }

/-- `Harness.add_cable` (line 39): `self.cables[name] = Cable(...)`. -/
def add_cable (h : Harness) (name : String) (c : Cable) : Harness :=
  { h with cables := dictSet h.cables name c }

/-- `Harness.add_bom_item` (line 48). -/
def add_bom_item (h : Harness) (item : String) : Harness :=
  { h with additional_bom_items := h.additional_bom_items ++ [item] }

/-- The module-level `arrows` list (`Harness.py` line 22). -/
def arrows : List String := ["<--", "<->", "-->", "<==", "<=>", "==>"]

/-- Message of `Harness.py` line 59. -/
def msgAmbig (name : String) (pin : PyVal) : String :=
  name ++ ":" ++ pyvalStr pin ++ " is defined both in pinlabels and pins, for different pins."

/-- Message of `Harness.py` line 63. -/
def msgDup (name : String) (pin : PyVal) : String :=
  name ++ ":" ++ pyvalStr pin ++ " is defined more than once."

/-- Message of `Harness.py` line 71. -/
def msgNotFound (name : String) (pin : PyVal) : String :=
  name ++ ":" ++ pyvalStr pin ++ " not found."

/-- Message of `Harness.py` line 85. -/
def msgWireAmbig (name : String) (w : PyVal) : String :=
  name ++ ":" ++ pyvalStr w ++ " is defined both in colors and wirelabels, for different wires."

/-- Message of `Harness.py` lines 89 and 93. -/
def msgWireDup (name : String) (w : PyVal) : String :=
  name ++ ":" ++ pyvalStr w ++ " is used for more than one wire."

/-- Pin-token resolution against one declared connector: the body of the
endpoint loop of `Harness.connect` (lines 57-71).  The ambiguity check
(lines 57-59) fires first; then the label branch with its duplicate check
and rewrite through `connector.pins[index]` (lines 61-65, an out-of-range
index raising `IndexError`); finally the not-found check on the possibly
rewritten token (lines 70-71). -/
def resolve_pin (name : String) (c : Connector) (pin : PyVal) : Except PyError PyVal :=
  if pin ∈ c.pins ∧ pin ∈ c.pinlabels ∧ idxOf pin c.pins ≠ idxOf pin c.pinlabels then
    .error (.exception (msgAmbig name pin))
  else if pin ∈ c.pinlabels then
    if countOf pin c.pinlabels > 1 then
      .error (.exception (msgDup name pin))
    else
      match c.pins.get? (idxOf pin c.pinlabels) with
      | Option.none => .error .indexError
      | some p =>
        if p ∈ c.pins then .ok p else .error (.exception (msgNotFound name p))
  else if pin ∈ c.pins then
    .ok pin
  else
    .error (.exception (msgNotFound name pin))

/-- One iteration of the endpoint loop of `Harness.connect` (lines 53-71),
carrying the running values of `from_pin` and `to_pin`.  A `None` or
undeclared name skips resolution (line 54); on success of the label branch
the resolved pin is written back to `from_pin` / `to_pin` according to the
`name == from_name` / `name == to_name` comparisons (lines 66-69) — in
particular, when both names are equal, both variables are overwritten. -/
def endpointIter (h : Harness) (from_name to_name : Option String)
    (name : Option String) (pin : PyVal) (fp tp : PyVal) :
    Except PyError (PyVal × PyVal) :=
  match name with
  | Option.none => .ok (fp, tp)
  | some n =>
    match lookupStr n h.connectors with
    | Option.none => .ok (fp, tp)
    | some c =>
      match resolve_pin n c pin with
      | .error e => .error e
      | .ok p =>
        if pin ∈ c.pinlabels then
          .ok (if name = from_name then p else fp, if name = to_name then p else tp)
        else
          .ok (fp, tp)

/-- The full endpoint loop (`for (name, pin) in zip([from_name, to_name],
[from_pin, to_pin])`, lines 53-71).  The `zip` snapshots the original
argument values, so the second iteration resolves the original `to_pin`
even if the first iteration overwrote the variable. -/
def endpointLoop (h : Harness) (from_name : Option String) (from_pin : PyVal)
    (to_name : Option String) (to_pin : PyVal) : Except PyError (PyVal × PyVal) :=
  match endpointIter h from_name to_name from_name from_pin from_pin to_pin with
  | .error e => .error e
  | .ok (fp1, tp1) => endpointIter h from_name to_name to_name to_pin fp1 tp1

/-- Membership of a Python token in a list of strings (`via_wire in
cable.colors`): an int or `None` token never equals a string. -/
def pyInStrList (v : PyVal) (xs : List String) : Bool :=
  match v with
  | .str s => xs.contains s
  | _ => false

/-- `list.index` of a token in a list of strings; guarded by membership. -/
def pyStrIndex (v : PyVal) (xs : List String) : Nat :=
  match v with
  | .str s => idxOf s xs
  | _ => 0

/-- `list.count` of a token in a list of strings. -/
def pyStrCount (v : PyVal) (xs : List String) : Nat :=
  match v with
  | .str s => countOf s xs
  | _ => 0

/-- The `elif via_name in self.cables:` wire-resolution block of
`Harness.connect` (lines 80-94).  When `via_name` is not a declared cable
the block is skipped and the token is returned unchanged; note that a
token matching neither `colors` nor `wirelabels` also falls through
unchanged — no wire-not-found check exists. -/
def viaResolve (h : Harness) (via_name : String) (via_wire : PyVal) :
    Except PyError PyVal :=
  match lookupStr via_name h.cables with
  | Option.none => .ok via_wire
  | some cable =>
    if pyInStrList via_wire cable.colors = true ∧
        pyInStrList via_wire cable.wirelabels = true ∧
        pyStrIndex via_wire cable.colors ≠ pyStrIndex via_wire cable.wirelabels then
      .error (.exception (msgWireAmbig via_name via_wire))
    else if pyInStrList via_wire cable.colors = true then
      if pyStrCount via_wire cable.colors > 1 then
        .error (.exception (msgWireDup via_name via_wire))
      else
        .ok (.int (pyStrIndex via_wire cable.colors + 1))
    else if pyInStrList via_wire cable.wirelabels = true then
      if pyStrCount via_wire cable.wirelabels > 1 then
        .error (.exception (msgWireDup via_name via_wire))
      else
        .ok (.int (pyStrIndex via_wire cable.wirelabels + 1))
    else
      .ok via_wire

/-- Modelled from the spec: `Cable.connect` (`wireviz.DataClasses`, not
under `src/`) — "Record the connection on the cable (append to
`connections`)". -/
def cableConnect (cable : Cable) (from_name : Option String) (fp vw : PyVal)
    (to_name : Option String) (tp : PyVal) : Cable :=
  { cable with connections := cable.connections ++ [⟨from_name, fp, vw, to_name, tp⟩] }

/-- Modelled from the spec: `Connector.activate_pin` (`wireviz.DataClasses`,
not under `src/`) — "mark both resolved endpoint pins activated
(`visible_pins[pin] = true`)". -/
def activate_pin (c : Connector) (pin : PyVal) : Connector :=
  if pin ∈ c.visible_pins then c
  else { c with visible_pins := c.visible_pins ++ [pin] }

/-- Lines 97-100 of `Harness.connect`: activate the endpoint pin when the
endpoint name is a declared connector, else do nothing. -/
def activateIfConnector (h : Harness) (name : Option String) (pin : PyVal) : Harness :=
  match name with
  | Option.none => h
  | some n =>
    match updAssoc h.connectors n (fun c => activate_pin c pin) with
    | Option.none => h
    | some cs => { h with connectors := cs }

/-- `Harness.connect` (`Harness.py` lines 51-100) as a state transition.
On failure the returned error is paired with the harness state observable
at the raise site.  The arrow branch (lines 74-79) reads `self.mates`,
an attribute `__init__` never creates, so every arrow glyph raises
`AttributeError` before anything is recorded; otherwise the wire
resolution runs (lines 80-94), then line 96 unconditionally indexes
`self.cables[via_name]` (a `KeyError` when `via_name` is not a cable),
appends the connection, and lines 97-100 activate the endpoint pins. -/
def connect (h : Harness) (from_name : Option String) (from_pin : PyVal)
    (via_name : String) (via_wire : PyVal) (to_name : Option String)
    (to_pin : PyVal) : Except (PyError × Harness) Harness :=
  match endpointLoop h from_name from_pin to_name to_pin with
  | .error e => .error (e, h)
  | .ok (fp, tp) =>
    if via_name ∈ arrows then
      .error (.attributeError "mates", h)
    else
      match viaResolve h via_name via_wire with
      | .error e => .error (e, h)
      | .ok vw =>
        match lookupStr via_name h.cables with
        | Option.none => .error (.keyError via_name, h)
        | some cable =>
          let h1 : Harness :=
            { h with cables := dictSet h.cables via_name (cableConnect cable from_name fp vw to_name tp) }
          let h2 := activateIfConnector h1 from_name fp
          let h3 := activateIfConnector h2 to_name tp
          .ok h3

/-- Update the connector stored under a (possibly `None`) dict key, raising
`KeyError` when the key is absent — `self.connectors[name]` in
`create_graph`'s first pass. -/
def updConnector (cs : List (String × Connector)) (name : Option String)
    (f : Connector → Connector) : Except PyError (List (String × Connector)) :=
  match name with
  | Option.none => .error (.keyError "None")
  | some n =>
    match updAssoc cs n f with
    | Option.none => .error (.keyError n)
    | some cs' => .ok cs'

/-- Port-side inference from one recorded cable connection (`create_graph`
lines 120-125): a non-`None` `from_port` marks the from-connector
`ports_right`; a non-`None` `to_port` marks the to-connector `ports_left`. -/
def markConn (cs : List (String × Connector)) (conn : Connection) :
    Except PyError (List (String × Connector)) := do
  let cs1 ←
    if conn.from_port ≠ PyVal.none then
      updConnector cs conn.from_name (fun c => { c with ports_right := true })
    else
      pure cs
  if conn.to_port ≠ PyVal.none then
    updConnector cs1 conn.to_name (fun c => { c with ports_left := true })
  else
    pure cs1

/-- Port-side inference from one pin-level mate (`create_graph` lines
126-130): mark the from-connector `ports_right` and activate its pin, mark
the to-connector `ports_left` and activate its pin. -/
def markMate (cs : List (String × Connector)) (mate : MatePin) :
    Except PyError (List (String × Connector)) := do
  let cs1 ← updConnector cs (some mate.from_name)
    (fun c => activate_pin { c with ports_right := true } mate.from_port)
  updConnector cs1 (some mate.to_name)
    (fun c => activate_pin { c with ports_left := true } mate.to_port)

/-- All recorded connections in declaration order (the nested loops of
`create_graph` lines 120-121). -/
def connectionsList (h : Harness) : List Connection :=
  h.cables.foldl (fun acc nc => acc ++ nc.2.connections) []

/-- The first pass of `create_graph` (lines 119-130): prepare ports on
connectors depending on which side they will connect. -/
def pass1 (h : Harness) : Except PyError Harness := do
  let cs ← (connectionsList h).foldlM markConn h.connectors
  let cs2 ← h.mates_pin.foldlM markMate cs
  pure { h with connectors := cs2 }

/-- An abstract graph edge: the two `entity:port:compass` endpoint strings
handed to the external renderer. -/
structure GEdge where
  tail : String
  head : String
deriving DecidableEq, Repr

/-- Loop-edge emission for one connector (`create_graph` lines 184-196):
with loops present, the left side is chosen when `ports_left` is set, else
the right side, else `Exception('No side for loops')` is raised; each loop
pair becomes a same-side self-edge. -/
def connector_loop_edges (name : String) (c : Connector) :
    Except PyError (List GEdge) :=
  if c.loops.length > 0 then
    if c.ports_left then
      .ok (c.loops.map (fun p =>
        let a := pyvalStr p.1
        let b := pyvalStr p.2
        ⟨name ++ ":p" ++ a ++ "l:w", name ++ ":p" ++ b ++ "l:w"⟩))
    else if c.ports_right then
      .ok (c.loops.map (fun p =>
        let a := pyvalStr p.1
        let b := pyvalStr p.2
        ⟨name ++ ":p" ++ a ++ "r:e", name ++ ":p" ++ b ++ "r:e"⟩))
    else
      .error (.exception "No side for loops")
  else
    .ok []

/-- The per-connector stage of `create_graph`, restricted to loop edges:
connectors are processed in declaration order and the first failure aborts
the whole compilation. -/
def loopStage : List (String × Connector) → Except PyError (List GEdge)
  | [] => .ok []
  | (n, c) :: rest =>
    match connector_loop_edges n c with
    | .error e => .error e
    | .ok es =>
      match loopStage rest with
      | .error e => .error e
      | .ok es' => .ok (es ++ es')

/-- The harness-wide padding flag (`create_graph` line 201): true iff any
color token of any cable of the harness has more than two characters,
i.e. more than one two-character color component. -/
def padFlag (h : Harness) : Bool :=
  h.cables.any (fun nc => nc.2.colors.any (fun s => s.length > 2))

/-- Split a color token into its two-character color components. -/
def chunk2 : List Char → List (List Char)
  | [] => []
  | [a] => [[a]]
  | a :: b :: rest => [a, b] :: chunk2 rest

/-- Modelled from the spec: `wv_colors.get_color_hex` (not under `src/`).
Per spec section 4.1 it returns one hex code per color component of the
token; per the source comment at `create_graph` lines 199-200, when the
`pad` flag is set single-color wires are padded (to the triple-stripe
thickness of the double- or triple-colored wires) to make all wires of
equal thickness.  The palette lookup itself is abstracted: each
two-character component stands for its own code. -/
def get_color_hex (colorstr : String) (pad : Bool) : List String :=
  let comps := (chunk2 colorstr.toList).map (fun l => String.mk l)
  if pad = true ∧ comps.length = 1 then comps ++ comps ++ comps else comps

/-- The background-color row of one wire of a cable (`create_graph` line
259): the wire's color components bracketed by black borders. -/
def bgRow (colorstr : String) (pad : Bool) : List String :=
  "#000000" :: get_color_hex colorstr pad ++ ["#000000"]

/-- The abstract graph emitted by `create_graph`, restricted to the parts
the properties below are about: connector nodes, loop edges, and per-cable
wire color tables (the HTML label text around them is presentation). -/
structure GraphModel where
  nodes : List String
  loop_edges : List GEdge
  wiretables : List (String × List (List String))
deriving DecidableEq, Repr

/-- `Harness.create_graph` (lines 102-367), restricted as described at
`GraphModel`: the first pass infers port sides, the per-connector stage
emits nodes and loop edges (aborting on `No side for loops`), then the
harness-wide `pad` flag is computed and every wire of every cable is
rendered through `get_color_hex` with that same flag. -/
def create_graph (h : Harness) : Except PyError GraphModel :=
  match pass1 h with
  | .error e => .error e
  | .ok h1 =>
    match loopStage h1.connectors with
    | .error e => .error e
    | .ok ledges =>
      let pad := padFlag h1
      let wts := h1.cables.map (fun nc => (nc.1, nc.2.colors.map (fun s => bgRow s pad)))
      .ok ⟨h1.connectors.map (·.1), ledges, wts⟩

/-- Modelled from the spec: `wv_bom.generate_bom` (not under `src/`) —
groups connectors, cables and additional items by their composite part
key, summing quantities for identical keys, ordered by first occurrence. -/
def addBomKey (rows : List BomRow) (k : String) : List BomRow :=
  if rows.any (fun r => r.key = k) then
    rows.map (fun r => if r.key = k then { r with qty := r.qty + 1 } else r)
  else
    rows ++ [⟨k, 1⟩]

/-- Modelled from the spec: `wv_bom.generate_bom` (not under `src/`), see
`addBomKey`.  An empty harness yields an empty list. -/
def generate_bom (h : Harness) : List BomRow :=
  ((h.connectors.map (fun p => p.2.pn)) ++ (h.cables.map (fun p => p.2.pn)) ++
    h.additional_bom_items).foldl addBomKey []

/-- `Harness.bom` (lines 401-404): `if not self._bom: self._bom =
generate_bom(self); return self._bom`.  The cache test is Python
truthiness of the list, i.e. non-emptiness. -/
def bom (h : Harness) : List BomRow × Harness :=
  if h._bom = [] then
    let b := generate_bom h
    (b, { h with _bom := b })
  else
    (h._bom, h)

/-! ### Concrete fixtures -/

/-- Connector `A` with the single pin `1`. -/
def connA : Connector :=
  ⟨"A", "PN-A", [.int 1], [], [], [], false, false⟩

/-- Connector `B` with the single pin `1`. -/
def connB : Connector :=
  ⟨"B", "PN-B", [.int 1], [], [], [], false, false⟩

/-- A cable `W` with one black wire and no wire labels. -/
def cableW : Cable :=
  ⟨"W", "PN-W", ["BK"], [], []⟩

/-- A harness with connectors `A`, `B` and cable `W`. -/
def hABW : Harness :=
  { initHarness with
    connectors := [("A", connA), ("B", connB)]
    cables := [("W", cableW)] }

/-! ### C1 -/

/-- C1: the claim says a `connect` call whose `via_name` is an arrow glyph
records a mate and completes without touching `self.cables`.  On the code,
the arrow branch writes to `self.mates`, an attribute `Harness.__init__`
never creates, so the call raises `AttributeError` and records nothing —
and even apart from that, line 96 unconditionally indexes
`self.cables[via_name]`.  Evaluated here at the spec's own end-to-end
example 4: a `<->` mate between `A:1` and `B:1`. -/
theorem c1_arrow_glyph_hits_undefined_mates :
    connect hABW (some "A") (.int 1) "<->" .none (some "B") (.int 1) =
      .error (.attributeError "mates", hABW) := by
  rfl

/-! ### C5 -/

/-- C5: every failing `connect` call leaves the harness unchanged: the
error state returned at any raise site is the input state, so no cable
connection has been appended and no connector pin activation has been
modified.  This covers in particular all validation failures (ambiguous
reference, duplicate label, not-found), which all precede the recording
and activation steps of lines 96-100. -/
theorem c5_error_leaves_harness_unchanged
    (h : Harness) (fn : Option String) (fp : PyVal) (vn : String) (vw : PyVal)
    (tn : Option String) (tp : PyVal) (e : PyError) (h' : Harness)
    (hc : connect h fn fp vn vw tn tp = .error (e, h')) :
    h' = h := by
  unfold connect at hc
  split at hc
  · simp only [Except.error.injEq, Prod.mk.injEq] at hc
    exact hc.2.symm
  · split at hc
    · simp only [Except.error.injEq, Prod.mk.injEq] at hc
      exact hc.2.symm
    · split at hc
      · simp only [Except.error.injEq, Prod.mk.injEq] at hc
        exact hc.2.symm
      · split at hc
        · simp only [Except.error.injEq, Prod.mk.injEq] at hc
          exact hc.2.symm
        · simp at hc

/-- Witness for C5 at a concrete failing call: pin `2` does not exist on
connector `A`, the call fails, and the returned state is the input
harness. -/
theorem c5_witness : hABW = hABW :=
  c5_error_leaves_harness_unchanged hABW (some "A") (.int 2) "W" .none
    (some "B") (.int 1) (.exception "A:2 not found.") hABW (by rfl)

/-! ### C10 -/

/-- C10: when `via_name` is neither an arrow glyph nor a declared cable,
and endpoint pin validation has succeeded, `connect` raises the bare
lookup error `KeyError(via_name)` at the unconditional `self.cables[via_name]`
access of line 96, with the harness unchanged, rather than a dedicated
descriptive validation error. -/
theorem c10_unknown_via_raises_key_error
    (h : Harness) (fn : Option String) (fp : PyVal) (vn : String) (vw : PyVal)
    (tn : Option String) (tp : PyVal) (fp' tp' : PyVal)
    (hep : endpointLoop h fn fp tn tp = .ok (fp', tp'))
    (harrow : vn ∉ arrows)
    (hcab : lookupStr vn h.cables = Option.none) :
    connect h fn fp vn vw tn tp = .error (.keyError vn, h) := by
  unfold connect viaResolve
  rw [hep, hcab]
  simp only [if_neg harrow]

/-- Witness for C10: on the concrete harness, `"X9"` names no cable and is
no arrow glyph, both endpoint pins validate, and the call fails with
`KeyError("X9")`. -/
theorem c10_witness :
    connect hABW (some "A") (.int 1) "X9" .none (some "B") (.int 1) =
      .error (.keyError "X9", hABW) :=
  c10_unknown_via_raises_key_error hABW (some "A") (.int 1) "X9" .none
    (some "B") (.int 1) (.int 1) (.int 1) (by rfl) (by decide) (by rfl)

/-! ### C4 and C9: loop edges -/

/-- The only failure the loop-edge stage can produce is the constant
`No side for loops` exception. -/
theorem loop_edges_error_msg (n : String) (c : Connector) (e : PyError)
    (h : connector_loop_edges n c = .error e) :
    e = .exception "No side for loops" := by
  unfold connector_loop_edges at h
  split at h
  · split at h
    · simp at h
    · split at h
      · simp at h
      · simp only [Except.error.injEq] at h
        exact h.symm
  · simp at h

/-- If any connector of the list makes the loop-edge stage fail, the whole
stage fails with the `No side for loops` exception (the first failing
connector aborts it, and every failure carries that same message). -/
theorem loopStage_error_of_mem (cs : List (String × Connector)) (n : String)
    (c : Connector) (hmem : (n, c) ∈ cs) (e : PyError)
    (herr : connector_loop_edges n c = .error e) :
    loopStage cs = .error (.exception "No side for loops") := by
  induction cs with
  | nil => cases hmem
  | cons p rest ih =>
    obtain ⟨pn, pc⟩ := p
    unfold loopStage
    cases hple : connector_loop_edges pn pc with
    | error e0 =>
      simp only [loop_edges_error_msg pn pc e0 hple]
    | ok es =>
      rcases List.mem_cons.mp hmem with hhd | htl
      · rw [Prod.mk.injEq] at hhd
        rw [hhd.1, hhd.2] at herr
        rw [herr] at hple
        cases hple
      · rw [ih htl]

/-- C4: a connector with a non-empty `loops` list whose `ports_left` and
`ports_right` flags are both unset after the port-side inference pass
makes `create_graph` fail with the fatal `No side for loops` exception
(the `NoPortSideError` of the spec) instead of emitting the loop edge. -/
theorem c4_loops_without_port_side_raise
    (h h1 : Harness) (n : String) (c : Connector)
    (hp : pass1 h = .ok h1)
    (hmem : (n, c) ∈ h1.connectors)
    (hloops : c.loops ≠ [])
    (hl : c.ports_left = false) (hr : c.ports_right = false) :
    create_graph h = .error (.exception "No side for loops") := by
  have herr : connector_loop_edges n c = .error (.exception "No side for loops") := by
    unfold connector_loop_edges
    rw [hl, hr]
    rw [if_pos (List.length_pos.mpr hloops)]
    simp
  unfold create_graph
  rw [hp]
  simp only [loopStage_error_of_mem h1.connectors n c hmem _ herr]

/-- Connector `L` carrying a loop between its pins `1` and `2`, never
referenced by any connection or mate. -/
def connL : Connector :=
  ⟨"L", "PN-L", [.int 1, .int 2], [], [(.int 1, .int 2)], [], false, false⟩

/-- A harness whose only connector is the loop-carrying, never-connected
`L`. -/
def hLoop : Harness :=
  { initHarness with connectors := [("L", connL)] }

/-- Witness for C4: compiling the harness whose looped connector `L` has
no activated side fails with the `No side for loops` exception. -/
theorem c4_witness :
    create_graph hLoop = .error (.exception "No side for loops") :=
  c4_loops_without_port_side_raise hLoop hLoop "L" connL (by rfl)
    (by decide) (by decide) (by rfl) (by rfl)

/-- C9: when both `ports_left` and `ports_right` are set on a connector
with loops, the loop self-edges are always drawn on the left side — ports
`p<pin>l`, compass `w` — the left side strictly preceding the right in the
side selection. -/
theorem c9_loops_prefer_left_side
    (n : String) (c : Connector)
    (hloops : c.loops ≠ [])
    (hl : c.ports_left = true) (_hr : c.ports_right = true) :
    connector_loop_edges n c =
      .ok (c.loops.map (fun p =>
        let a := pyvalStr p.1
        let b := pyvalStr p.2
        ⟨n ++ ":p" ++ a ++ "l:w", n ++ ":p" ++ b ++ "l:w"⟩)) := by
  unfold connector_loop_edges
  rw [hl]
  rw [if_pos (List.length_pos.mpr hloops)]
  simp

/-- Connector `M` with a loop and both port sides activated. -/
def connLR : Connector :=
  ⟨"M", "PN-M", [.int 1], [], [(.int 1, .int 1)], [], true, true⟩

/-- Witness for C9: with both sides available, the loop edge of `M` is
emitted on the left side with compass `w`. -/
theorem c9_witness :
    connector_loop_edges "M" connLR = .ok [⟨"M:p1l:w", "M:p1l:w"⟩] :=
  c9_loops_prefer_left_side "M" connLR (by decide) (by rfl) (by rfl)

/-! ### C6 and C7: pin-token resolution -/

/-- The element at the index of the first occurrence is the element itself. -/
theorem idxOf_get {α : Type} [DecidableEq α] (x : α) (xs : List α) (hx : x ∈ xs) :
    xs.get? (idxOf x xs) = some x := by
  induction xs with
  | nil => cases hx
  | cons y ys ih =>
    unfold idxOf
    by_cases hyx : y = x
    · rw [if_pos hyx, hyx]
      rfl
    · rw [if_neg hyx]
      have hmem : x ∈ ys := by
        rcases List.mem_cons.mp hx with hh | ht
        · exact absurd hh.symm hyx
        · exact ht
      simpa using ih hmem

/-- Connector `X`: the token `a` names pin `a` (position 0) but also
labels pins `b` and `c` (label positions 1 and 2). -/
def connX : Connector :=
  ⟨"X", "PN-X", [.str "a", .str "b", .str "c"], [.str "x", .str "a", .str "a"], [], [], false, false⟩

/-- A harness holding connector `X` and cable `W`. -/
def hX : Harness :=
  { initHarness with connectors := [("X", connX)], cables := [("W", cableW)] }

/-- C6 counterexample: the token `a` occurs at more than one position of
`X`'s `pinlabels`, so the claim demands the duplicate-label failure; the
code instead fails with the ambiguous-reference error, because the
ambiguity check (pin-ID position 0 versus first label position 1) fires
before the duplicate check is ever reached. -/
theorem c6_counterexample_ambiguity_precedes_duplicate :
    countOf (PyVal.str "a") connX.pinlabels > 1 ∧
    connect hX (some "X") (.str "a") "W" (.int 1) Option.none .none =
      .error (.exception "X:a is defined both in pinlabels and pins, for different pins.", hX) := by
  refine ⟨by decide, by rfl⟩

/-- C6 amended: the three endpoint checks are applied sequentially — the
ambiguity check first, the duplicate-label check only when the ambiguity
check did not fire, the not-found check when the token is in neither
list — and a failing resolution of the first endpoint propagates out of
`connect` with the harness unchanged. -/
theorem c6_amended_sequential_pin_checks :
    (∀ (n : String) (c : Connector) (pin : PyVal),
      pin ∈ c.pins → pin ∈ c.pinlabels →
      idxOf pin c.pins ≠ idxOf pin c.pinlabels →
      resolve_pin n c pin = .error (.exception (msgAmbig n pin)))
    ∧ (∀ (n : String) (c : Connector) (pin : PyVal),
      ¬(pin ∈ c.pins ∧ pin ∈ c.pinlabels ∧
        idxOf pin c.pins ≠ idxOf pin c.pinlabels) →
      pin ∈ c.pinlabels → countOf pin c.pinlabels > 1 →
      resolve_pin n c pin = .error (.exception (msgDup n pin)))
    ∧ (∀ (n : String) (c : Connector) (pin : PyVal),
      pin ∉ c.pins → pin ∉ c.pinlabels →
      resolve_pin n c pin = .error (.exception (msgNotFound n pin)))
    ∧ (∀ (h : Harness) (fn : Option String) (fp : PyVal) (vn : String)
        (vw : PyVal) (tn : Option String) (tp : PyVal) (n : String)
        (c : Connector) (e : PyError),
      fn = some n → lookupStr n h.connectors = some c →
      resolve_pin n c fp = .error e →
      connect h fn fp vn vw tn tp = .error (e, h)) := by
  refine ⟨?_, ?_, ?_, ?_⟩
  · intro n c pin h1 h2 h3
    unfold resolve_pin
    rw [if_pos ⟨h1, h2, h3⟩]
  · intro n c pin hna h2 h3
    unfold resolve_pin
    rw [if_neg hna, if_pos h2, if_pos h3]
  · intro n c pin hp hl
    unfold resolve_pin
    rw [if_neg (fun hand => hp hand.1), if_neg hl, if_neg hp]
  · intro h fn fp vn vw tn tp n c e hfn hlk hres
    subst hfn
    unfold connect endpointLoop endpointIter
    simp only [hlk, hres]

/-- Witness for the amended C6, first clause, at connector `X`: resolving
`a` fails with the ambiguous-reference message. -/
theorem c6_amended_witness :
    resolve_pin "X" connX (.str "a") =
      .error (.exception (msgAmbig "X" (.str "a"))) :=
  c6_amended_sequential_pin_checks.1 "X" connX (.str "a")
    (by decide) (by decide) (by decide)

/-- Connector `Y` with unique pin IDs `a`, `b`, whose labels name the
pins crosswise: pin `a` is labelled `b` and pin `b` is labelled `a`. -/
def connY : Connector :=
  ⟨"Y", "PN-Y", [.str "a", .str "b"], [.str "b", .str "a"], [], [], false, false⟩

/-- C7 counterexample: `a` is a pin ID present in `Y`'s `pins` and `Y` has
unique pin IDs, yet resolution does not return the token unchanged — it
fails with the ambiguous-reference error, because `a` also occurs in
`pinlabels` at a different position. -/
theorem c7_counterexample_pin_id_shadowed_by_label :
    connY.pins.Nodup ∧ (PyVal.str "a") ∈ connY.pins ∧
    resolve_pin "Y" connY (.str "a") =
      .error (.exception "Y:a is defined both in pinlabels and pins, for different pins.") := by
  refine ⟨by decide, by decide, by rfl⟩

/-- C7 amended: resolving a token that is already a pin ID returns it
unchanged, provided its occurrence in `pinlabels` (if any) is a single
occurrence at the matching position. -/
theorem c7_amended_resolution_idempotent
    (n : String) (c : Connector) (pin : PyVal)
    (hpin : pin ∈ c.pins)
    (hlab : pin ∈ c.pinlabels →
      idxOf pin c.pinlabels = idxOf pin c.pins ∧ countOf pin c.pinlabels = 1) :
    resolve_pin n c pin = .ok pin := by
  unfold resolve_pin
  by_cases hb : pin ∈ c.pinlabels
  · obtain ⟨hidx, hcnt⟩ := hlab hb
    rw [if_neg (fun hand => hand.2.2 hidx.symm), if_pos hb]
    rw [if_neg (by omega : ¬ countOf pin c.pinlabels > 1)]
    rw [hidx, idxOf_get pin c.pins hpin]
    simp [hpin]
  · rw [if_neg (fun hand => hb hand.2.1), if_neg hb, if_pos hpin]

/-- Witness for the amended C7 at connector `A`: the numeric pin ID `1`
resolves to itself. -/
theorem c7_amended_witness :
    resolve_pin "A" connA (.int 1) = .ok (.int 1) :=
  c7_amended_resolution_idempotent "A" connA (.int 1) (by decide) (by decide)

/-! ### C2: no wire-not-found check -/

/-- Looking up a key just stored by dict assignment returns the new value. -/
theorem lookupStr_dictSet {α : Type} (xs : List (String × α)) (k : String) (v : α) :
    lookupStr k (dictSet xs k v) = some v := by
  induction xs with
  | nil =>
    unfold dictSet lookupStr
    rw [if_pos rfl]
  | cons p rest ih =>
    unfold dictSet
    by_cases hp : p.1 = k
    · rw [if_pos hp]
      unfold lookupStr
      rw [if_pos rfl]
    · rw [if_neg hp]
      unfold lookupStr
      rw [if_neg hp]
      exact ih

/-- Pin activation never touches the cables of the harness. -/
theorem activateIfConnector_cables (h : Harness) (name : Option String) (pin : PyVal) :
    (activateIfConnector h name pin).cables = h.cables := by
  cases name with
  | none => rfl
  | some n =>
    show (match updAssoc h.connectors n (fun c => activate_pin c pin) with
      | Option.none => h
      | some cs => { h with connectors := cs }).cables = h.cables
    cases updAssoc h.connectors n (fun c => activate_pin c pin) with
    | none => rfl
    | some cs => rfl

/-- C2 amended: `Harness.connect` performs no wire-not-found check.  When
`via_name` is a declared cable and the `via_wire` token matches neither the
cable's `colors` nor its `wirelabels`, the call succeeds and the connection
is recorded with the raw, unresolved token as its `via_port`; no
`WireNotFoundError` is raised. -/
theorem c2_amended_no_wire_not_found_check
    (h : Harness) (fn : Option String) (fp : PyVal) (vn : String) (vw : PyVal)
    (tn : Option String) (tp : PyVal) (fp' tp' : PyVal) (cable : Cable)
    (hep : endpointLoop h fn fp tn tp = .ok (fp', tp'))
    (harrow : vn ∉ arrows)
    (hcab : lookupStr vn h.cables = some cable)
    (hc1 : pyInStrList vw cable.colors = false)
    (hc2 : pyInStrList vw cable.wirelabels = false) :
    ∃ h' : Harness,
      connect h fn fp vn vw tn tp = .ok h' ∧
      lookupStr vn h'.cables =
        some { cable with connections := cable.connections ++ [⟨fn, fp', vw, tn, tp'⟩] } := by
  have hv : viaResolve h vn vw = .ok vw := by
    unfold viaResolve
    rw [hcab]
    simp [hc1, hc2]
  unfold connect
  simp only [hep]
  rw [if_neg harrow]
  simp only [hv, hcab]
  refine ⟨_, rfl, ?_⟩
  rw [activateIfConnector_cables, activateIfConnector_cables, lookupStr_dictSet]
  rfl

/-- The harness state after the C2 counterexample call: the connection is
recorded on cable `W` carrying the unresolved token `XX`, and both
endpoint pins are activated. -/
def hC2res : Harness :=
  { initHarness with
    connectors := [("A", { connA with visible_pins := [.int 1] }),
                   ("B", { connB with visible_pins := [.int 1] })]
    cables := [("W", { cableW with
      connections := [⟨some "A", .int 1, .str "XX", some "B", .int 1⟩] })] }

/-- C2 counterexample: the token `XX` matches neither the colors nor the
wire labels of cable `W` (and is no 1-based wire index), yet `connect`
does not fail — it succeeds and records the connection with the raw token
as `via_port`. -/
theorem c2_counterexample_unmatched_wire_token_recorded :
    pyInStrList (PyVal.str "XX") cableW.colors = false ∧
    pyInStrList (PyVal.str "XX") cableW.wirelabels = false ∧
    connect hABW (some "A") (.int 1) "W" (.str "XX") (some "B") (.int 1) = .ok hC2res ∧
    (lookupStr "W" hC2res.cables).map (fun c => c.connections.map (fun conn => conn.via_port)) =
      some [PyVal.str "XX"] := by
  refine ⟨by rfl, by rfl, by rfl, by rfl⟩

/-- Witness for the amended C2 at the concrete harness: the call with the
unmatched token `XX` succeeds and the token is stored unresolved. -/
theorem c2_amended_witness :
    ∃ h' : Harness,
      connect hABW (some "A") (.int 1) "W" (.str "XX") (some "B") (.int 1) = .ok h' ∧
      lookupStr "W" h'.cables =
        some { cableW with
          connections := [⟨some "A", .int 1, .str "XX", some "B", .int 1⟩] } :=
  c2_amended_no_wire_not_found_check hABW (some "A") (.int 1) "W" (.str "XX")
    (some "B") (.int 1) (.int 1) (.int 1) cableW (by rfl) (by decide)
    (by rfl) (by rfl) (by rfl)

/-! ### C3: wire padding is harness-global -/

/-- Stripe counts of a two-character (single-component) color token: three
when padded, one otherwise. -/
theorem get_color_hex_len_single (s : String) (hs : s.length = 2) :
    (get_color_hex s true).length = 3 ∧ (get_color_hex s false).length = 1 := by
  have hl : s.toList.length = 2 := hs
  obtain ⟨a, b, hab⟩ := List.length_eq_two.mp hl
  unfold get_color_hex
  rw [hab]
  simp [chunk2]

/-- Cable `K1` with a double-colored (black/red) wire. -/
def cableK1 : Cable := ⟨"K1", "PN-K1", ["BKRD"], [], []⟩

/-- Cable `K2` all of whose wires are single-color. -/
def cableK2 : Cable := ⟨"K2", "PN-K2", ["BK"], [], []⟩

/-- A harness with the multi-color cable `K1` and the single-color cable
`K2`. -/
def hPad : Harness :=
  { initHarness with cables := [("K1", cableK1), ("K2", cableK2)] }

/-- C3 counterexample: every color token of cable `K2` is single-color,
yet — because the *other* cable `K1` holds a multi-color wire — the
compiled diagram renders `K2`'s wire with three stripes instead of the
single unpadded stripe the claim demands. -/
theorem c3_counterexample_global_padding :
    (∀ s ∈ cableK2.colors, s.length ≤ 2) ∧
    (get_color_hex "BK" false).length = 1 ∧
    create_graph hPad =
      .ok ⟨[], [],
        [("K1", [["#000000", "BK", "RD", "#000000"]]),
         ("K2", [["#000000", "BK", "BK", "BK", "#000000"]])]⟩ := by
  refine ⟨by decide, by rfl, by rfl⟩

/-- C3 amended: the padding decision is harness-global, not per-cable.  If
any cable anywhere in the harness holds a color token of more than one
component, every single-color wire of every cable is padded to three
stripes; only when no cable holds a multi-color token do single-color
wires render with a single stripe. -/
theorem c3_amended_padding_is_harness_global :
    (∀ (h : Harness) (nameC : String) (c : Cable) (s : String),
      (nameC, c) ∈ h.cables → s ∈ c.colors → s.length > 2 →
      ∀ s2 : String, s2.length = 2 → (get_color_hex s2 (padFlag h)).length = 3)
    ∧ (∀ (h : Harness), padFlag h = false →
      ∀ s2 : String, s2.length = 2 → (get_color_hex s2 (padFlag h)).length = 1) := by
  constructor
  · intro h nameC c s hmem hsmem hgt s2 hs2
    have hpf : padFlag h = true := by
      unfold padFlag
      rw [List.any_eq_true]
      refine ⟨(nameC, c), hmem, ?_⟩
      rw [List.any_eq_true]
      exact ⟨s, hsmem, by simpa using hgt⟩
    rw [hpf]
    exact (get_color_hex_len_single s2 hs2).1
  · intro h hpf s2 hs2
    rw [hpf]
    exact (get_color_hex_len_single s2 hs2).2

/-- Witness for the amended C3 at the concrete harness: the single-color
token `BK` is padded to three stripes because cable `K1` holds the
multi-color token `BKRD`. -/
theorem c3_amended_witness :
    (get_color_hex "BK" (padFlag hPad)).length = 3 :=
  c3_amended_padding_is_harness_global.1 hPad "K1" cableK1 "BKRD"
    (by decide) (by decide) (by decide) "BK" (by decide)

/-! ### C8: the BOM cache is emptiness-based -/

/-- A non-empty cache is returned as is, with no recomputation and no
state change. -/
theorem bom_of_ne (h : Harness) (hne : h._bom ≠ []) : bom h = (h._bom, h) := by
  unfold bom
  rw [if_neg hne]

/-- After any call to `bom`, the cache field holds the returned list. -/
theorem bom_snd_bom (h : Harness) : ((bom h).2)._bom = (bom h).1 := by
  unfold bom
  by_cases hb : h._bom = []
  · rw [if_pos hb]
  · rw [if_neg hb]

/-- C8 counterexample: on a harness whose first BOM is empty, the cache
never takes effect — a mutation after the first call changes what the
next call returns, contradicting "every subsequent call returns the
cached list regardless of any later mutation". -/
theorem c8_counterexample_empty_bom_recomputed :
    (bom initHarness).1 = [] ∧
    (bom (add_connector (bom initHarness).2 "A" connA)).1 = [⟨"PN-A", 1⟩] ∧
    (bom (add_connector (bom initHarness).2 "A" connA)).1 ≠ (bom initHarness).1 := by
  refine ⟨by rfl, by rfl, by decide⟩

/-- C8 amended: the cache test is Python truthiness, i.e. non-emptiness.
A non-empty cache is returned unchanged without recomputation; the first
call stores its result in the cache; and provided the first computed list
is non-empty, a subsequent call returns it unchanged even after a
mutation of the harness.  An empty BOM, however, is recomputed on every
call. -/
theorem c8_amended_nonempty_bom_cached :
    (∀ h : Harness, h._bom ≠ [] → bom h = (h._bom, h))
    ∧ (∀ h : Harness, ((bom h).2)._bom = (bom h).1)
    ∧ (∀ (h : Harness) (n : String) (c : Connector),
      (bom h).1 ≠ [] → (bom (add_connector (bom h).2 n c)).1 = (bom h).1) := by
  refine ⟨bom_of_ne, bom_snd_bom, ?_⟩
  intro h n c hne
  have h3 : (add_connector (bom h).2 n c)._bom = (bom h).1 := bom_snd_bom h
  have h4 : (add_connector (bom h).2 n c)._bom ≠ [] := by
    rw [h3]
    exact hne
  rw [bom_of_ne _ h4]
  exact h3

/-- A harness with one connector, whose BOM is the non-empty `[PN-A × 1]`. -/
def hBom : Harness := add_connector initHarness "A" connA

/-- Witness for the amended C8: after the first (non-empty) BOM of `hBom`
is computed, adding connector `B` and asking again still returns the
cached list. -/
theorem c8_amended_witness :
    (bom (add_connector (bom hBom).2 "B" connB)).1 = (bom hBom).1 :=
  c8_amended_nonempty_bom_cached.2.2 hBom "B" connB (by decide)

end WireViz
